import Mathlib

/-!
Shallow embedding of the window-targeting and input-delivery logic of an
SAP GUI automation server (a Windows controller, a macOS controller and a
protocol adapter), together with proofs about the embedded operations.

Each definition is translated from one function of the source tree:
  - `sap_controller.py` : coordinate mapper, window locator, dialog resolver
    call site, foreground activator, text extractor, session manager;
  - `sap_controller_macos.py` : the `type_text` markup parser;
  - `server.py` : the tool-call adapter.

Machine-level concerns (actual Win32 handles, the mouse, the screen) are
represented by explicit data: a window is a record of the attributes the code
reads, OS-call outcomes that the code branches on are parameters, and side
effects are returned as an explicit event list.
-/

namespace SapGui

/-- `headMatch needle hay` - `needle` is an initial segment of `hay`
(character-by-character comparison, as Python string search does). -/
def headMatch : List Char → List Char → Bool
  | [], _ => true
  | _ :: _, [] => false
  | a :: as, b :: bs => a == b && headMatch as bs

/-- `subMatch needle hay` - Python `needle in hay` on strings:
`needle` occurs contiguously somewhere in `hay`. -/
def subMatch : List Char → List Char → Bool
  | needle, [] => needle.isEmpty
  | needle, c :: rest => headMatch needle (c :: rest) || subMatch needle rest

/-- Python `pat in hay` for strings. -/
def strContains (hay pat : String) : Bool :=
  subMatch pat.toList hay.toList

/-- Python `s.lower()` (ASCII case folding, which is all the code relies on). -/
def lowerStr (s : String) : String :=
  String.mk (s.toList.map Char.toLower)

/-- Python `any(kw in text.lower() for kw in kws)` with lowercase keywords. -/
def containsAny (text : String) (kws : List String) : Bool :=
  kws.any (fun kw => strContains (lowerStr text) kw)

/-- Python `str.strip()` on a character list: drop whitespace at both ends. -/
def pyStripL (cs : List Char) : List Char :=
  ((cs.dropWhile Char.isWhitespace).reverse.dropWhile Char.isWhitespace).reverse

/-- `splitAtFirst sep cs` - Python `s.split(sep, 1)` when `sep` occurs:
`some (before, after)` around the first occurrence, `none` when absent. -/
def splitAtFirst (sep : Char) : List Char → Option (List Char × List Char)
  | [] => none
  | c :: rest =>
    if c == sep then some ([], rest)
    else (splitAtFirst sep rest).map (fun p => (c :: p.1, p.2))

/-- `isOkE e` - the `Except` value is a success. -/
def isOkE {α : Type} : Except String α → Bool
  | .ok _ => true
  | .error _ => false

/-! ## Coordinate mapper (`sap_controller.py`)

`_get_dpi_scale`, `_click_with_dpi_scaling` and `_move_with_dpi_scaling`.
The window rectangle that `win32gui.GetWindowRect` returns is passed in
explicitly; real numbers of the Python floats are modelled as rationals. -/

/-- A window bounding rectangle as returned by `GetWindowRect`:
`(left, top, right, bottom)`. -/
structure WinRect where
  left : Int
  top : Int
  right : Int
  bottom : Int
deriving DecidableEq

/-- `width = rect[2] - rect[0]` in the source. -/
def WinRect.width (r : WinRect) : Int := r.right - r.left

/-- `height = rect[3] - rect[1]` in the source. -/
def WinRect.height (r : WinRect) : Int := r.bottom - r.top

/-- `_get_dpi_scale`: `GetDpiForSystem() / 96.0`, or `1.0` when the OS query
raises (`query = none`). -/
def getDpiScale (query : Option ℚ) : ℚ :=
  match query with
  | some dpi => dpi / 96
  | none => 1

/-- `_click_with_dpi_scaling` up to the computed screen position: validate the
coordinates against the window rectangle when `checkBounds` is set
(`0 <= x <= width and 0 <= y <= height`, else `ValueError`), then map
`screen_x = rect[0] + x * dpi_scale`, `screen_y = rect[1] + y * dpi_scale`.
The subsequent `moveTo`/`click` calls act at exactly the returned point. -/
def clickWithDpiScaling (r : WinRect) (x y : Int) (checkBounds : Bool)
    (dpiScale : ℚ) : Except String (ℚ × ℚ) :=
  if checkBounds then
    if 0 ≤ x ∧ x ≤ r.width ∧ 0 ≤ y ∧ y ≤ r.height then
      .ok ((r.left : ℚ) + (x : ℚ) * dpiScale, (r.top : ℚ) + (y : ℚ) * dpiScale)
    else
      .error "Coordinates are outside window bounds"
  else
    .ok ((r.left : ℚ) + (x : ℚ) * dpiScale, (r.top : ℚ) + (y : ℚ) * dpiScale)

/-- `_move_with_dpi_scaling`: identical validation and mapping (the source
duplicates the logic; only the dispatched mouse action differs). -/
def moveWithDpiScaling (r : WinRect) (x y : Int) (checkBounds : Bool)
    (dpiScale : ℚ) : Except String (ℚ × ℚ) :=
  if checkBounds then
    if 0 ≤ x ∧ x ≤ r.width ∧ 0 ≤ y ∧ y ≤ r.height then
      .ok ((r.left : ℚ) + (x : ℚ) * dpiScale, (r.top : ℚ) + (y : ℚ) * dpiScale)
    else
      .error "Coordinates are outside window bounds"
  else
    .ok ((r.left : ℚ) + (x : ℚ) * dpiScale, (r.top : ℚ) + (y : ℚ) * dpiScale)

/-! ## `type_text` markup parser (`sap_controller_macos.py`)

The macOS controller contains the in-repository implementation of the
keystroke mini-markup; the Windows controller forwards the same markup string
to the OS `WScript.Shell.SendKeys` component unparsed.  Emitted input is
modelled as an event list: `pyautogui.write(buffer)` becomes `.write` of the
buffered characters, `pyautogui.press(k)` becomes `.press k`. -/

/-- One synthesized input event. -/
inductive KeyEvent where
  | write (cs : List Char)
  | press (key : String)
deriving DecidableEq

/-- The `mapping` dictionary in `type_text`: bracket-token name (already
upper-cased) to `pyautogui` key name. -/
def specialKeyMap (key : String) : Option String :=
  if key = "ENTER" then some "enter"
  else if key = "TAB" then some "tab"
  else if key = "ESC" then some "esc"
  else if key = "BACKSPACE" then some "backspace"
  else if key = "DELETE" then some "delete"
  else if key = "UP" then some "up"
  else if key = "DOWN" then some "down"
  else if key = "LEFT" then some "left"
  else if key = "RIGHT" then some "right"
  else none

/-- `text.find(chr(125), i)` relative to the character after the opening
brace: the characters strictly before the first closing brace and the
characters after it, or `none` when no closing brace follows. -/
def findCloseBrace : List Char → Option (List Char × List Char)
  | [] => none
  | c :: rest =>
    if c = '\x7d' then some ([], rest)
    else
      match findCloseBrace rest with
      | some (tok, after) => some (c :: tok, after)
      | none => none

/-- The events a recognized bracket token produces: `key = token.upper()`;
a `mapping` hit is pressed, else `key.startswith(chr(70))` (the letter F)
with `key[1:].isdigit()` presses `key.lower()`, else nothing is sent. -/
def tokenEvents (tok : List Char) : List KeyEvent :=
  let ku := tok.map Char.toUpper
  match specialKeyMap (String.mk ku) with
  | some k => [.press k]
  | none =>
    match ku with
    | 'F' :: rest =>
      if rest ≠ [] ∧ rest.all Char.isDigit then
        [.press (String.mk (ku.map Char.toLower))]
      else []
    | _ => []

/-- `if buffer: pyautogui.write(buffer)` - flush the pending literal run in
front of the continuation events. -/
def flushWrite (buf : List Char) (k : List KeyEvent) : List KeyEvent :=
  if buf = [] then k else .write buf :: k

/-- The `while i < len(text)` loop of `type_text`.  Every iteration consumes
at least one character, so the character count bounds the iteration count;
`fuel` carries that bound to keep the recursion structural (the zero-fuel arm
is never reached from `typeTextEvents`). -/
def typeTextGo : Nat → List Char → List Char → List KeyEvent
  | 0, _, buf => flushWrite buf []
  | _ + 1, [], buf => flushWrite buf []
  | fuel + 1, c :: rest, buf =>
    if c = '\x7b' then
      match findCloseBrace rest with
      | some (tok, after) => flushWrite buf (tokenEvents tok ++ typeTextGo fuel after [])
      | none => typeTextGo fuel rest (buf ++ [c])
    else if c = '~' then
      flushWrite buf (.press "enter" :: typeTextGo fuel rest [])
    else
      typeTextGo fuel rest (buf ++ [c])

/-- `type_text`: the ordered event sequence the markup string produces. -/
def typeTextEvents (text : String) : List KeyEvent :=
  typeTextGo text.length text.toList []

/-- Total count of literal characters sent by the event sequence. -/
def literalLen (es : List KeyEvent) : Nat :=
  es.foldl (fun n e => match e with | .write cs => n + cs.length | .press _ => n) 0

/-- No markup metacharacter (either brace, or the tilde) occurs. -/
def noMarkupChars (cs : List Char) : Bool :=
  cs.all (fun c => !(c == '\x7b' || c == '\x7d' || c == '~'))

/-! ## Text extractor (`SapController._get_window_text`)

The child-window enumeration delivers a list of text strings; the classifier
sorts each into error messages, status messages or a label/value field, in
that priority, after dropping empty strings and the `_UI_ELEMENTS` deny list.
`field_values` is a Python dict keyed by the stripped label: an existing key
is overwritten in place, a new key is appended. -/

/-- `SapController._UI_ELEMENTS`. -/
def uiElements : List String :=
  ["AppToolbar", "Custom Container", "Control Container",
   "SAP\x27s Advanced Treelist"]

/-- The error-message keyword list of `_get_window_text`. -/
def errorKeywords : List String :=
  ["error", "does not exist", "invalid", "failed"]

/-- The status-message keyword list of `_get_window_text`. -/
def statusKeywords : List String :=
  ["success", "completed", "processed"]

/-- The result dictionary built by `_get_window_text`. -/
structure TextResult where
  mainText : String
  errorMessages : List String
  statusMessages : List String
  fieldValues : List (String × String)
deriving DecidableEq

/-- Python dict assignment `d[k] = v`: overwrite the existing entry for `k`
in place, else append. -/
def setField : List (String × String) → String → String → List (String × String)
  | [], k, v => [(k, v)]
  | (k0, v0) :: rest, k, v =>
    if k0 = k then (k0, v) :: rest else (k0, v0) :: setField rest k v

/-- The body of `enum_child_callback` for one child-window text. -/
def processChildText (res : TextResult) (text : String) : TextResult :=
  if text = "" ∨ text ∈ uiElements then res
  else if containsAny text errorKeywords = true then
    { res with errorMessages := res.errorMessages ++ [text] }
  else if containsAny text statusKeywords = true then
    { res with statusMessages := res.statusMessages ++ [text] }
  else
    -- `elif chr(58) in text: label, value = text.split(chr(58), 1)`:
    -- the colon test is exactly `splitAtFirst` succeeding.
    match splitAtFirst ':' text.toList with
    | some (label, value) =>
      let fv := setField res.fieldValues (String.mk (pyStripL label)) (String.mk (pyStripL value))
      { res with fieldValues := fv }
    | none => res

/-- `_get_window_text`: main-window title verbatim, then the child texts
folded through the classifier in enumeration order. -/
def getWindowText (mainTitle : String) (children : List String) : TextResult :=
  children.foldl processChildText
    { mainText := mainTitle, errorMessages := [], statusMessages := [],
      fieldValues := [] }

/-! ## Window locator (`sap_controller.py`)

`EnumWindows` delivers the top-level windows in a fixed order; a window is a
record of the attributes the callbacks read (`GetWindowText`,
`IsWindowVisible`, `GetWindowThreadProcessId`, `psutil.Process(pid).name()`,
`IsWindow`). -/

/-- One top-level window as the enumeration callbacks see it. -/
structure PyWindow where
  hwnd : Int
  title : String
  visible : Bool
  pid : Int
  processName : String
  isWin : Bool
deriving DecidableEq

/-- Title marker of the multiple-logon popup. -/
def popupMarker : String := "License Information for Multiple Logons"

/-- Title marker of the launcher window. -/
def logonMarker : String := "SAP Logon"

/-- The module-level `_handle_multiple_logon_popup(process_pid)` - the popup
*finder*: enumerate all windows, skip invisible ones and other processes,
and remember the handle of each visible window of the process whose title
contains the popup marker (a later match overwrites `result`). -/
def handleMultipleLogonPopupFinder (processPid : Int)
    (ws : List PyWindow) : Option Int :=
  ws.foldl
    (fun result w =>
      if w.visible = false then result
      else if w.pid ≠ processPid then result
      else if strContains w.title popupMarker = true then some w.hwnd
      else result)
    none

/-- Outcome of a Python call expression. -/
inductive PyCallOutcome (α : Type) where
  | ran (value : α)
  | argMismatchTypeError
deriving DecidableEq

/-- Required positional parameters of the module-level
`_handle_multiple_logon_popup` (one: `process_pid`). -/
def moduleResolverParamCount : Nat := 1

/-- Arguments supplied at the call site inside
`_find_sap_window_integrated`'s callback: `_handle_multiple_logon_popup()`
is written with none. -/
def resolverCallSiteArgCount : Nat := 0

/-- The call `_handle_multiple_logon_popup()` inside the enumeration
callback.  The name resolves to the module-level one-parameter function, not
to the `SapController` method of the same name, so Python raises `TypeError`
for the missing `process_pid` argument before any function body runs. -/
def resolverCallAtPopupBranch (processPid : Int)
    (ws : List PyWindow) : PyCallOutcome (Option Int) :=
  if resolverCallSiteArgCount = moduleResolverParamCount then
    .ran (handleMultipleLogonPopupFinder processPid ws)
  else
    .argMismatchTypeError

/-- The mutable state `_find_sap_window_integrated` drives: the two module
globals, the `found_window` flag, and instrumentation of the resolver call
site (how often the call expression was reached, and how often a called
function body actually ran - the dismissal sequence of
`SapController._handle_multiple_logon_popup` would be such a body). -/
structure FindState where
  popupHwnd : Option Int
  mainHwnd : Option Int
  found : Bool
  resolverCallAttempts : Nat
  resolverBodyRuns : Nat
deriving DecidableEq

/-- The starting state of a fresh launch: both globals unset. -/
def initFindState : FindState :=
  { popupHwnd := none, mainHwnd := none, found := false,
    resolverCallAttempts := 0, resolverBodyRuns := 0 }

/-- One execution of `enum_windows_callback` in
`_find_sap_window_integrated`: skip non-windows, invisible windows, other
processes and empty titles; on the popup marker record `_popup_hwnd` and
reach the resolver call site (whose `TypeError` the callback's `except`
swallows, so enumeration continues); skip the launcher window; otherwise
record `_main_window_hwnd` and set the found flag, still continuing. -/
def integratedStep (targetPid : Int) (ws : List PyWindow)
    (s : FindState) (w : PyWindow) : FindState :=
  if w.isWin = false then s
  else if w.visible = false ∨ w.pid ≠ targetPid ∨ w.title = "" then s
  else if strContains w.title popupMarker = true then
    let s1 := { s with popupHwnd := some w.hwnd, resolverCallAttempts := s.resolverCallAttempts + 1 }
    match resolverCallAtPopupBranch targetPid ws with
    | .ran _ => { s1 with resolverBodyRuns := s1.resolverBodyRuns + 1 }
    | .argMismatchTypeError => s1
  else if strContains w.title logonMarker = true then s
  else { s with mainHwnd := some w.hwnd, found := true }

/-- One full `EnumWindows` pass of `_find_sap_window_integrated`. -/
def findSapWindowIntegratedPass (targetPid : Int)
    (ws : List PyWindow) : FindState :=
  ws.foldl (integratedStep targetPid ws) initFindState

/-- `_find_sap_window_integrated`: the enclosing 5-second loop repeats the
pass every 100ms until the flag is set; over a fixed window list every pass
computes the same state, so the run reduces to a single pass whose `found`
flag is the returned boolean (`False` models the timeout). -/
def findSapWindowIntegrated (targetPid : Int)
    (ws : List PyWindow) : Bool × FindState :=
  ((findSapWindowIntegratedPass targetPid ws).found,
   findSapWindowIntegratedPass targetPid ws)

/-- The `result` list `_find_any_sap_window` accumulates: handles of the
visible windows whose owning process is named `saplogon.exe` and whose title
does not contain the launcher marker, in enumeration order. -/
def sapCandidates (ws : List PyWindow) : List Int :=
  (ws.filter (fun w =>
    w.visible && (lowerStr w.processName == "saplogon.exe")
      && !(strContains w.title logonMarker))).map (fun w => w.hwnd)

/-- `_find_any_sap_window`: none when there are no candidates, else the
candidate equal to `GetForegroundWindow()` (`fg`), else the first one. -/
def findAnySapWindow (ws : List PyWindow) (fg : Int) : Option Int :=
  match sapCandidates ws with
  | [] => none
  | h0 :: _ =>
    match (sapCandidates ws).find? (fun x => x == fg) with
    | some a => some a
    | none => some h0

/-- The C1 end-to-end scenario: the target process (pid 1234) has exactly two
visible windows, the multiple-logon popup (handle 10) and the transaction
main window (handle 20), enumerated in that order. -/
def c1Windows : List PyWindow :=
  [{ hwnd := 10, title := "License Information for Multiple Logons",
     visible := true, pid := 1234, processName := "saplogon.exe", isWin := true },
   { hwnd := 20, title := "SAP Easy Access - MM03",
     visible := true, pid := 1234, processName := "saplogon.exe", isWin := true }]

/-- An enumeration in which the launcher window is the only visible window
of the target process. -/
def logonOnlyWindows : List PyWindow :=
  [{ hwnd := 7, title := "SAP Logon 770", visible := true, pid := 1234,
     processName := "saplogon.exe", isWin := true }]

/-! ## Foreground activator (`SapController._ensure_sap_window_active`)

The routine picks a target handle (stored global when truthy and still a
window, else the fallback search), restores/maximizes it, then escalates
through three activation tiers; `_wait_for_window_activation` polls
`GetForegroundWindow()` after each tier.  Whether each tier's poll observes
the window in the foreground is an OS outcome and enters as the three
booleans; the restore and maximize calls carry no claim-relevant state. -/

/-- How the activation attempt ended. -/
inductive ActivationOutcome where
  | activated (tier : Nat)
  | warnedNotActivated
deriving DecidableEq

/-- The escalation sequence of `_ensure_sap_window_active`.  Each tier issues
OS calls (`BringWindowToTop`; posted window messages; ALT keypress plus
`SetForegroundWindow`) and then polls `GetForegroundWindow`.  The OS calls of
a tier can themselves raise (pywin32 surfaces a denied foreground change as
an exception): `r1 r2 r3` say whether the calls of each tier raise when
reached, `t1 t2 t3` whether the subsequent poll observes the window in the
foreground.  A raise escapes to the enclosing `try` of the routine; after a
failed third poll only a warning is logged. -/
def activateTiers (r1 r2 r3 t1 t2 t3 : Bool) :
    Except String ActivationOutcome :=
  if r1 then .error "Failed to activate SAP window: tier 1 call raised"
  else if t1 then .ok (.activated 1)
  else if r2 then .error "Failed to activate SAP window: tier 2 call raised"
  else if t2 then .ok (.activated 2)
  else if r3 then .error "Failed to activate SAP window: tier 3 call raised"
  else if t3 then .ok (.activated 3)
  else .ok .warnedNotActivated

/-- `_ensure_sap_window_active`: `live` is the set of handles for which
`IsWindow` holds, `ws`/`fg` feed the fallback `_find_any_sap_window`,
`r1 r2 r3` say whether each reached tier's OS calls raise, and `t1 t2 t3`
are the per-tier foreground-poll outcomes.  The stored global is used when
truthy and still a window (`_main_window_hwnd and
IsWindow(_main_window_hwnd)`); otherwise the fallback result is used and a
falsy fallback (`if not hwnd`) raises.  The whole body sits in one `try`
whose `except` re-raises every exception as
`Failed to activate SAP window: ...`, so both the falsy-fallback raise and
any tier-call raise become an operation failure; only failed polls are
non-fatal (a logged warning). -/
def ensureSapWindowActive (cachedMain : Option Int) (live : List Int)
    (ws : List PyWindow) (fg : Int) (r1 r2 r3 t1 t2 t3 : Bool) :
    Except String ActivationOutcome :=
  let viaCache : Bool :=
    match cachedMain with
    | some h => decide (h ≠ 0) && decide (h ∈ live)
    | none => false
  let hwndOpt : Option Int :=
    if viaCache then cachedMain
    else
      match findAnySapWindow ws fg with
      | some h2 => if h2 = 0 then none else some h2
      | none => none
  match hwndOpt with
  | none => .error "Failed to activate SAP window: No SAP GUI window found"
  | some _ => activateTiers r1 r2 r3 t1 t2 t3

/-! ## Session manager (`SapController.launch_transaction`)

Environment and OS facts enter as a configuration record; the
process-affecting side effects (`taskkill` of the two process images, the
`subprocess.Popen` spawn) leave as an ordered effect list. -/

/-- A process-affecting side effect of `launch_transaction`. -/
inductive LaunchEffect where
  | killProcess (image : String)
  | spawnProcess
deriving DecidableEq

/-- Python truthiness of an `os.getenv` result: absent (`None`) and the
empty string are falsy. -/
def truthyEnv : Option String → Bool
  | none => false
  | some s => s != ""

/-- The environment and OS state `launch_transaction` consults. -/
structure LaunchCfg where
  exeExists : Bool
  sapSystem : Option String
  sapClient : Option String
  sapUser : Option String
  sapPassword : Option String
  processAppears : Bool
  processPid : Int
  windows : List PyWindow
  screenshot : String
deriving DecidableEq

/-- `launch_transaction`: resolve `sapshcut.exe` (fail if absent), validate
the four credentials with `not all([...])` (fail before any side effect),
then kill prior `saplogon.exe`/`sapshcut.exe` instances, spawn the new
process, poll for `saplogon.exe` (fail on timeout), and locate the main
window (fail when not found); on success return the screenshot. -/
def launch_transaction (cfg : LaunchCfg) :
    Except String String × List LaunchEffect :=
  if cfg.exeExists = false then
    (.error "sapshcut.exe not found", [])
  else if (truthyEnv cfg.sapSystem && truthyEnv cfg.sapClient
      && truthyEnv cfg.sapUser && truthyEnv cfg.sapPassword) = false then
    (.error "Missing required SAP credentials in environment variables", [])
  else
    let effects := [LaunchEffect.killProcess "saplogon.exe",
                    LaunchEffect.killProcess "sapshcut.exe",
                    LaunchEffect.spawnProcess]
    if cfg.processAppears = false then
      (.error "Failed to find saplogon.exe process after 5 seconds", effects)
    else if (findSapWindowIntegrated cfg.processPid cfg.windows).1 = false then
      (.error "Could not find main SAP window after launching transaction.",
       effects)
    else
      (.ok cfg.screenshot, effects)

/-- A launch environment that is healthy except for the absent password. -/
def missingPwCfg : LaunchCfg :=
  { exeExists := true, sapSystem := some "S01", sapClient := some "100",
    sapUser := some "user", sapPassword := none, processAppears := true,
    processPid := 1234, windows := c1Windows, screenshot := "IMG" }

/-! ## Protocol adapter (`server.py`, `handle_call_tool`)

Tool arguments arrive as a JSON-derived dictionary, modelled as an
association list of Python values.  The controller methods on the happy path
return `{"image": <base64>}`; that screenshot string is the `img` parameter.
Dispatched operations leave as an effect list.  The claims touch the
`sap_click` and `sap_scroll` branches and the screenshot-format flag; the
remaining tool branches are outside the model and map to `none`. -/

/-- A Python value as it can appear in the arguments dictionary. -/
inductive PyVal where
  | vInt (i : Int)
  | vStr (s : String)
  | vBool (b : Bool)
  | vNone
deriving DecidableEq

/-- Python truthiness, as `arguments.get("experimental", False)` is used in
boolean position. -/
def pyTruthy : PyVal → Bool
  | .vInt i => i != 0
  | .vStr s => s != ""
  | .vBool b => b
  | .vNone => false

/-- Digit-run value, `none` on a non-digit. -/
def digitsValGo : List Char → Nat → Option Nat
  | [], acc => some acc
  | c :: rest, acc =>
    if c.isDigit then digitsValGo rest (acc * 10 + (c.toNat - 48)) else none

/-- Value of a non-empty all-digit run, else `none`. -/
def digitsVal (cs : List Char) : Option Nat :=
  match cs with
  | [] => none
  | _ => digitsValGo cs 0

/-- Python `int(s)` on a string: surrounding whitespace stripped, an
optional sign, then at least one digit; anything else raises `ValueError`
(`none`). -/
def parseIntPy (s : String) : Option Int :=
  match pyStripL s.toList with
  | '-' :: rest => (digitsVal rest).map (fun n => -(n : Int))
  | '+' :: rest => (digitsVal rest).map (fun n => (n : Int))
  | cs => (digitsVal cs).map (fun n => (n : Int))

/-- Python `int(v)`: ints pass through, booleans coerce to 0/1, strings
parse per `parseIntPy`, `None` raises `TypeError` (`none`). -/
def pyToInt : PyVal → Option Int
  | .vInt i => some i
  | .vBool b => some (if b then 1 else 0)
  | .vStr s => parseIntPy s
  | .vNone => none

/-- `arguments[k]` lookup (dict keys are unique; association order is the
dict's). -/
def argsGet (args : List (String × PyVal)) (k : String) : Option PyVal :=
  List.lookup k args

/-- `arguments.get(k, d)`. -/
def argsGetD (args : List (String × PyVal)) (k : String) (d : PyVal) : PyVal :=
  (argsGet args k).getD d

/-- One entry of the returned MCP content sequence. -/
inductive McpContent where
  | text (t : String)
  | imageContent (dataB64 : String)
  | embeddedResource (uri : String) (body : String)
deriving DecidableEq

/-- A dispatched controller operation. -/
inductive ToolEffect where
  | clickAt (x y : Int)
  | scrolled (amount : Int)
deriving DecidableEq

/-- `handle_image_response`: the `experimental` flag selects either the
typed image payload plus the raw data URI as text, or a single embedded
resource carrying the data URI. -/
def handleImageResponse (img : String) (experimental : Bool) :
    List McpContent :=
  if experimental then
    [.imageContent img, .text ("data:image/png;base64," ++ img)]
  else
    [.embeddedResource "application:image" ("data:image/png;base64," ++ img)]

/-- The error payload the outer `except` of `handle_call_tool` converts an
exception into. -/
def errorContent (toolName msg : String) : List McpContent :=
  [.text ("Error: Error executing " ++ toolName ++ ": " ++ msg)]

/-- `handle_call_tool` on the claim-relevant branches.

`sap_click`: `x = int(arguments.get(chr(120), 0))` and likewise `y` - an
absent coordinate silently becomes 0; a present value that `int()` rejects
raises `ValueError("Coordinates must be valid integers")`, which the outer
handler renders as an error text with no dispatch.  On success the click is
dispatched and, because `click_position` returns only the image key, the
content is exactly the screenshot payload for the `experimental` flag.

`sap_scroll`: `arguments["direction"]` raises `KeyError` when absent
(rendered `'direction'`); a non-string value fails inside
`direction.lower()` (the exact Python rendering of that `AttributeError`
is irrelevant to every claim); a string scrolls by -5 for `"down"` (case
insensitive) else 5 and returns the screenshot payload.  No argument named
`return_screenshot` is read anywhere: unknown keys are simply ignored.

Unmatched tool names that exist in the source but are outside every claim
map to `none`; a name outside the dispatch chain entirely returns the
`Unknown tool` text. -/
def handleCallTool (name : String) (args : List (String × PyVal))
    (img : String) : Option (List McpContent × List ToolEffect) :=
  if name = "sap_click" then
    match pyToInt (argsGetD args "x" (.vInt 0)),
          pyToInt (argsGetD args "y" (.vInt 0)) with
    | some x, some y =>
      some (handleImageResponse img
              (pyTruthy (argsGetD args "experimental" (.vBool false))),
            [.clickAt x y])
    | _, _ =>
      some (errorContent "sap_click" "Coordinates must be valid integers", [])
  else if name = "sap_scroll" then
    match argsGet args "direction" with
    | none => some (errorContent "sap_scroll" "\x27direction\x27", [])
    | some (.vStr dir) =>
      some (handleImageResponse img
              (pyTruthy (argsGetD args "experimental" (.vBool false))),
            [.scrolled (if lowerStr dir = "down" then (-5 : Int) else 5)])
    | some _ =>
      some (errorContent "sap_scroll" "attribute error", [])
  else if name = "launch_transaction" ∨ name = "sap_move_mouse"
      ∨ name = "sap_type" ∨ name = "end_transaction"
      ∨ name = "save_last_screenshot" then
    none
  else
    some ([.text ("Unknown tool: " ++ name)], [])

end SapGui

namespace SapGui

/-- C2: with bounds checking requested, the click helper and the move helper
fail exactly on `x < 0 ∨ y < 0 ∨ x > width ∨ y > height` and succeed on every
in-range pair, the boundary `(width, height)` included. -/
theorem bounds_check_exact (r : WinRect) (x y : Int) (s : ℚ) :
    (isOkE (clickWithDpiScaling r x y true s) = true ↔
      ¬(x < 0 ∨ y < 0 ∨ x > r.width ∨ y > r.height))
    ∧ (isOkE (moveWithDpiScaling r x y true s) = true ↔
      ¬(x < 0 ∨ y < 0 ∨ x > r.width ∨ y > r.height)) := by
  by_cases h : 0 ≤ x ∧ x ≤ r.width ∧ 0 ≤ y ∧ y ≤ r.height
  · have hc : clickWithDpiScaling r x y true s =
        .ok ((r.left : ℚ) + (x : ℚ) * s, (r.top : ℚ) + (y : ℚ) * s) := by
      simp [clickWithDpiScaling, h]
    have hm : moveWithDpiScaling r x y true s =
        .ok ((r.left : ℚ) + (x : ℚ) * s, (r.top : ℚ) + (y : ℚ) * s) := by
      simp [moveWithDpiScaling, h]
    rw [hc, hm]
    refine ⟨⟨fun _ => ?_, fun _ => rfl⟩, ⟨fun _ => ?_, fun _ => rfl⟩⟩
    · push_neg
      omega
    · push_neg
      omega
  · have hc : clickWithDpiScaling r x y true s =
        .error "Coordinates are outside window bounds" := by
      simp [clickWithDpiScaling, h]
    have hm : moveWithDpiScaling r x y true s =
        .error "Coordinates are outside window bounds" := by
      simp [moveWithDpiScaling, h]
    rw [hc, hm]
    refine ⟨⟨fun hfalse => absurd hfalse (by simp [isOkE]), fun hno => ?_⟩,
      ⟨fun hfalse => absurd hfalse (by simp [isOkE]), fun hno => ?_⟩⟩
    · push_neg at hno
      exact absurd (by omega : 0 ≤ x ∧ x ≤ r.width ∧ 0 ≤ y ∧ y ≤ r.height) h
    · push_neg at hno
      exact absurd (by omega : 0 ≤ x ∧ x ≤ r.width ∧ 0 ≤ y ∧ y ≤ r.height) h

/-- Witness for C2: the exact boundary point `(width, height) = (800, 600)`
of an 800x600 window. -/
theorem bounds_check_exact_witness :
    (isOkE (clickWithDpiScaling ⟨0, 0, 800, 600⟩ 800 600 true 1) = true ↔
      ¬((800 : Int) < 0 ∨ (600 : Int) < 0
        ∨ (800 : Int) > WinRect.width ⟨0, 0, 800, 600⟩
        ∨ (600 : Int) > WinRect.height ⟨0, 0, 800, 600⟩))
    ∧ (isOkE (moveWithDpiScaling ⟨0, 0, 800, 600⟩ 800 600 true 1) = true ↔
      ¬((800 : Int) < 0 ∨ (600 : Int) < 0
        ∨ (800 : Int) > WinRect.width ⟨0, 0, 800, 600⟩
        ∨ (600 : Int) > WinRect.height ⟨0, 0, 800, 600⟩)) :=
  bounds_check_exact ⟨0, 0, 800, 600⟩ 800 600 1

/-- C3: for every positive DPI scale and in-bounds coordinates the mapper
computes `screenX = windowLeft + x * s`, `screenY = windowTop + y * s`, and
subtracting the window origin and dividing by `s` recovers `(x, y)` exactly
(hence within any rounding tolerance). -/
theorem dpi_mapping_round_trip (r : WinRect) (x y : Int) (s : ℚ)
    (hs : 0 < s)
    (hx0 : 0 ≤ x) (hxw : x ≤ r.width) (hy0 : 0 ≤ y) (hyh : y ≤ r.height) :
    clickWithDpiScaling r x y true s =
      .ok ((r.left : ℚ) + (x : ℚ) * s, (r.top : ℚ) + (y : ℚ) * s)
    ∧ (((r.left : ℚ) + (x : ℚ) * s) - (r.left : ℚ)) / s = (x : ℚ)
    ∧ (((r.top : ℚ) + (y : ℚ) * s) - (r.top : ℚ)) / s = (y : ℚ) := by
  have hs0 : s ≠ 0 := ne_of_gt hs
  refine ⟨?_, ?_, ?_⟩
  · unfold clickWithDpiScaling
    rw [if_pos rfl, if_pos ⟨hx0, hxw, hy0, hyh⟩]
  · field_simp
  · field_simp

/-- Witness for C3: DPI scale `144/96 = 3/2` (as `_get_dpi_scale` computes it
for a 144-DPI system) on a 960x480 window at origin `(100, 50)`,
logical point `(4, 5)`. -/
theorem dpi_mapping_round_trip_witness :
    clickWithDpiScaling ⟨100, 50, 1060, 530⟩ 4 5 true (getDpiScale (some 144)) =
      .ok ((100 : ℚ) + (4 : ℚ) * getDpiScale (some 144),
           (50 : ℚ) + (5 : ℚ) * getDpiScale (some 144))
    ∧ (((100 : ℚ) + (4 : ℚ) * getDpiScale (some 144)) - (100 : ℚ)) /
        getDpiScale (some 144) = ((4 : Int) : ℚ)
    ∧ (((50 : ℚ) + (5 : ℚ) * getDpiScale (some 144)) - (50 : ℚ)) /
        getDpiScale (some 144) = ((5 : Int) : ℚ) :=
  dpi_mapping_round_trip ⟨100, 50, 1060, 530⟩ 4 5 (getDpiScale (some 144))
    (by norm_num [getDpiScale]) (by decide) (by decide) (by decide) (by decide)

/-- On markup-free input the loop only ever grows the buffer, so the run is
one batched write of the whole buffered text. -/
theorem typeTextGo_noMarkup (cs : List Char) : ∀ (fuel : Nat) (buf : List Char),
    cs.length ≤ fuel → noMarkupChars cs = true →
    typeTextGo fuel cs buf = flushWrite (buf ++ cs) [] := by
  induction cs with
  | nil =>
    intro fuel buf _ _
    cases fuel <;> simp [typeTextGo]
  | cons c rest ih =>
    intro fuel buf hlen hno
    cases fuel with
    | zero => simp at hlen
    | succ f =>
      have hall := hno
      simp only [noMarkupChars, List.all_cons, Bool.and_eq_true] at hall
      have hc := hall.1
      have hrest : noMarkupChars rest = true := hall.2
      have hcb : ¬(c = '\x7b') := by
        intro hcontra
        subst hcontra
        simp at hc
      have hct : ¬(c = '~') := by
        intro hcontra
        subst hcontra
        simp at hc
      have hlen2 : rest.length ≤ f := by
        simp only [List.length_cons] at hlen
        omega
      simp only [typeTextGo, if_neg hcb, if_neg hct]
      rw [ih f (buf ++ [c]) hlen2 hrest]
      simp

/-- C5: on input free of braces and tildes the parser sends exactly the input
characters (total literal length preserved, one batched write); the sample
`"Hello{TAB}World~"` tokenizes to literal `"Hello"`, a TAB press, literal
`"World"`, an ENTER press; bracket-token names match case-insensitively
(`"{tab}"` presses TAB). -/
theorem type_text_markup (text : String) (h : noMarkupChars text.toList = true) :
    literalLen (typeTextEvents text) = text.length
    ∧ typeTextEvents "Hello{TAB}World~" =
        [.write "Hello".toList, .press "tab", .write "World".toList,
         .press "enter"]
    ∧ typeTextEvents "{tab}" = [.press "tab"] := by
  refine ⟨?_, by decide, by decide⟩
  have hrun : typeTextEvents text = flushWrite text.toList [] := by
    unfold typeTextEvents
    rw [typeTextGo_noMarkup text.toList text.length [] (le_of_eq rfl) h]
    simp
  rw [hrun]
  unfold flushWrite
  by_cases hb : text.toList = []
  · rw [if_pos hb]
    have : text.length = 0 := by
      have := congrArg List.length hb
      simpa using this
    simp [literalLen, this]
  · rw [if_neg hb]
    simp [literalLen]

/-- Witness for C5: the markup-free input `"abc"`. -/
theorem type_text_markup_witness :
    literalLen (typeTextEvents "abc") = "abc".length
    ∧ typeTextEvents "Hello{TAB}World~" =
        [.write "Hello".toList, .press "tab", .write "World".toList,
         .press "enter"]
    ∧ typeTextEvents "{tab}" = [.press "tab"] :=
  type_text_markup "abc" (by decide)

/-- A successful split means the input had at least one character. -/
theorem splitAtFirst_ne_nil {sep : Char} {cs : List Char}
    {p : List Char × List Char} (h : splitAtFirst sep cs = some p) : cs ≠ [] := by
  intro hnil
  subst hnil
  simp [splitAtFirst] at h

/-- C4: the classifier of `_get_window_text` assigns every non-empty,
non-deny-listed child text to exactly one bucket, checking error keywords,
then status keywords, then a colon split (stripped label/value, later
occurrence of a label overwriting the earlier), else discarding; empty and
deny-listed strings are always discarded. -/
theorem extract_text_classifier
    (t t1 t2 : String) (labL v1L v2L : List Char)
    (hne : t ≠ "") (hdeny : t ∉ uiElements)
    (h1 : splitAtFirst ':' t1.toList = some (labL, v1L))
    (h2 : splitAtFirst ':' t2.toList = some (labL, v2L))
    (hd1 : t1 ∉ uiElements) (hk1 : containsAny t1 errorKeywords = false)
    (hs1 : containsAny t1 statusKeywords = false)
    (hd2 : t2 ∉ uiElements) (hk2 : containsAny t2 errorKeywords = false)
    (hs2 : containsAny t2 statusKeywords = false) :
    (containsAny t errorKeywords = true →
      getWindowText "" [t] = ⟨"", [t], [], []⟩)
    ∧ (containsAny t errorKeywords = false →
        containsAny t statusKeywords = true →
        getWindowText "" [t] = ⟨"", [], [t], []⟩)
    ∧ (containsAny t errorKeywords = false →
        containsAny t statusKeywords = false →
        splitAtFirst ':' t.toList = none →
        getWindowText "" [t] = ⟨"", [], [], []⟩)
    ∧ getWindowText "" [""] = ⟨"", [], [], []⟩
    ∧ getWindowText "" ["AppToolbar"] = ⟨"", [], [], []⟩
    ∧ getWindowText "" [t1] =
        ⟨"", [], [], [(String.mk (pyStripL labL), String.mk (pyStripL v1L))]⟩
    ∧ getWindowText "" [t1, t2] =
        ⟨"", [], [], [(String.mk (pyStripL labL), String.mk (pyStripL v2L))]⟩ := by
  have hnotd : ¬(t = "" ∨ t ∈ uiElements) := by
    rintro (he | hm)
    · exact hne he
    · exact hdeny hm
  have hne1 : t1 ≠ "" := by
    intro hcontra
    apply splitAtFirst_ne_nil h1
    rw [hcontra]
    rfl
  have hne2 : t2 ≠ "" := by
    intro hcontra
    apply splitAtFirst_ne_nil h2
    rw [hcontra]
    rfl
  have hnotd1 : ¬(t1 = "" ∨ t1 ∈ uiElements) := by
    rintro (he | hm)
    · exact hne1 he
    · exact hd1 hm
  have hnotd2 : ¬(t2 = "" ∨ t2 ∈ uiElements) := by
    rintro (he | hm)
    · exact hne2 he
    · exact hd2 hm
  refine ⟨?_, ?_, ?_, by decide, by decide, ?_, ?_⟩
  · intro herr
    simp [getWindowText, processChildText, hnotd, herr]
  · intro herr hst
    simp [getWindowText, processChildText, hnotd, herr, hst]
  · intro herr hst hnone
    have hnoneD : splitAtFirst ':' t.data = none := hnone
    simp [getWindowText, processChildText, hnotd, herr, hst, hnoneD]
  · have h1D : splitAtFirst ':' t1.data = some (labL, v1L) := h1
    simp [getWindowText, processChildText, hnotd1, hk1, hs1, h1D, setField]
  · have h1D : splitAtFirst ':' t1.data = some (labL, v1L) := h1
    have h2D : splitAtFirst ':' t2.data = some (labL, v2L) := h2
    simp [getWindowText, processChildText, hnotd1, hk1, hs1, h1D,
      hnotd2, hk2, hs2, h2D, setField]

/-- Witness for C4: the spec examples - an error text, a label/value pair,
and a repeated label whose later value wins. -/
theorem extract_text_classifier_witness :
    (containsAny "Material does not exist" errorKeywords = true →
      getWindowText "" ["Material does not exist"] =
        ⟨"", ["Material does not exist"], [], []⟩)
    ∧ (containsAny "Material does not exist" errorKeywords = false →
        containsAny "Material does not exist" statusKeywords = true →
        getWindowText "" ["Material does not exist"] =
          ⟨"", [], ["Material does not exist"], []⟩)
    ∧ (containsAny "Material does not exist" errorKeywords = false →
        containsAny "Material does not exist" statusKeywords = false →
        splitAtFirst ':' "Material does not exist".toList = none →
        getWindowText "" ["Material does not exist"] = ⟨"", [], [], []⟩)
    ∧ getWindowText "" [""] = ⟨"", [], [], []⟩
    ∧ getWindowText "" ["AppToolbar"] = ⟨"", [], [], []⟩
    ∧ getWindowText "" ["Material: 100-100"] =
        ⟨"", [], [], [(String.mk (pyStripL "Material".toList),
          String.mk (pyStripL " 100-100".toList))]⟩
    ∧ getWindowText "" ["Material: 100-100", "Material: 200"] =
        ⟨"", [], [], [(String.mk (pyStripL "Material".toList),
          String.mk (pyStripL " 200".toList))]⟩ :=
  extract_text_classifier "Material does not exist" "Material: 100-100"
    "Material: 200" "Material".toList " 100-100".toList " 200".toList
    (by decide) (by decide) (by decide) (by decide) (by decide) (by decide)
    (by decide) (by decide) (by decide) (by decide)

/-- C1 (code bug): on the two-window scenario the locator records the popup
handle, reaches the resolver call site exactly once, returns found with the
non-popup window as the main handle - but no resolver body ever runs: the
zero-argument call of the one-parameter module-level function raises a
`TypeError` that the callback swallows, so the popup is never dismissed. -/
theorem multi_logon_resolver_never_runs :
    findSapWindowIntegrated 1234 c1Windows =
      (true, { popupHwnd := some 10, mainHwnd := some 20, found := true,
               resolverCallAttempts := 1, resolverBodyRuns := 0 }) := by
  decide

/-- A single locator step can only set the main handle to the handle of a
window whose title avoids the launcher marker. -/
theorem integratedStep_main_src (pid : Int) (ws : List PyWindow)
    (s : FindState) (w : PyWindow) (h : Int)
    (hm : (integratedStep pid ws s w).mainHwnd = some h) :
    s.mainHwnd = some h
    ∨ (w.hwnd = h ∧ strContains w.title logonMarker = false) := by
  unfold integratedStep at hm
  split at hm
  next => exact .inl hm
  next =>
    split at hm
    next => exact .inl hm
    next =>
      split at hm
      next => exact .inl hm
      next =>
        split at hm
        next => exact .inl hm
        next hnotLogon =>
          refine .inr ⟨?_, ?_⟩
          · simpa using hm
          · cases hval : strContains w.title logonMarker
            · rfl
            · exact absurd hval hnotLogon

/-- A step on a launcher-titled window changes neither the main handle nor
the found flag. -/
theorem integratedStep_logon (pid : Int) (ws : List PyWindow)
    (s : FindState) (w : PyWindow)
    (hw : strContains w.title logonMarker = true) :
    (integratedStep pid ws s w).mainHwnd = s.mainHwnd
    ∧ (integratedStep pid ws s w).found = s.found := by
  unfold integratedStep
  split
  next => exact ⟨rfl, rfl⟩
  next =>
    split
    next => exact ⟨rfl, rfl⟩
    next =>
      split
      next => exact ⟨rfl, rfl⟩
      next => simp [hw]

/-- Fold form of `integratedStep_main_src` over a window list. -/
theorem integrated_fold_main_src (pid : Int) (ws : List PyWindow)
    (l : List PyWindow) : ∀ (s : FindState) (h : Int),
    (l.foldl (integratedStep pid ws) s).mainHwnd = some h →
    s.mainHwnd = some h
    ∨ ∃ w, w ∈ l ∧ w.hwnd = h ∧ strContains w.title logonMarker = false := by
  induction l with
  | nil =>
    intro s h hm
    exact .inl hm
  | cons w l ih =>
    intro s h hm
    simp only [List.foldl_cons] at hm
    rcases ih (integratedStep pid ws s w) h hm with hstep | ⟨w2, hw2l, hw2⟩
    · rcases integratedStep_main_src pid ws s w h hstep with hold | ⟨hh, hlog⟩
      · exact .inl hold
      · exact .inr ⟨w, List.mem_cons_self w l, hh, hlog⟩
    · exact .inr ⟨w2, List.mem_cons_of_mem w hw2l, hw2⟩

/-- Fold form of `integratedStep_logon`: over a list of launcher-titled
windows neither the main handle nor the found flag moves. -/
theorem integrated_fold_logon (pid : Int) (ws : List PyWindow)
    (l : List PyWindow) : ∀ (s : FindState),
    (∀ w ∈ l, strContains w.title logonMarker = true) →
    (l.foldl (integratedStep pid ws) s).mainHwnd = s.mainHwnd
    ∧ (l.foldl (integratedStep pid ws) s).found = s.found := by
  induction l with
  | nil =>
    intro s _
    exact ⟨rfl, rfl⟩
  | cons w l ih =>
    intro s hall
    simp only [List.foldl_cons]
    have hw := hall w (List.mem_cons_self w l)
    have hstep := integratedStep_logon pid ws s w hw
    have hrest := ih (integratedStep pid ws s w)
      (fun w2 hw2 => hall w2 (List.mem_cons_of_mem w hw2))
    exact ⟨hrest.1.trans hstep.1, hrest.2.trans hstep.2⟩

/-- A fallback hit always originates from a candidate window of the list
whose title avoids the launcher marker. -/
theorem findAnySapWindow_src (ws : List PyWindow) (fg h : Int)
    (hf : findAnySapWindow ws fg = some h) :
    ∃ w, w ∈ ws ∧ w.hwnd = h ∧ strContains w.title logonMarker = false := by
  unfold findAnySapWindow at hf
  have hmem : h ∈ sapCandidates ws := by
    split at hf
    next => exact absurd hf (by simp)
    next h0 t heq =>
      split at hf
      next a hfind =>
        have ha := List.mem_of_find?_eq_some hfind
        rw [Option.some.injEq] at hf
        rw [← hf]
        exact ha
      next =>
        rw [Option.some.injEq] at hf
        rw [← hf, heq]
        exact List.mem_cons_self h0 t
  unfold sapCandidates at hmem
  rcases List.mem_map.mp hmem with ⟨w, hwmem, hwh⟩
  rcases List.mem_filter.mp hwmem with ⟨hwin, hpred⟩
  refine ⟨w, hwin, hwh, ?_⟩
  have hsplit := (Bool.and_eq_true _ _).mp hpred
  rcases hsplit with ⟨_, hnot⟩
  cases hval : strContains w.title logonMarker
  · rfl
  · rw [hval] at hnot
    simp at hnot

/-- C7: neither locator path ever yields a launcher-titled window as the
main window; when every window of the enumeration is launcher-titled the
primary path reports not-found with no main handle and the fallback path
reports none. -/
theorem locator_never_selects_logon (pid fg h : Int) (ws : List PyWindow) :
    ((findSapWindowIntegrated pid ws).2.mainHwnd = some h →
      ∃ w, w ∈ ws ∧ w.hwnd = h ∧ strContains w.title logonMarker = false)
    ∧ (findAnySapWindow ws fg = some h →
      ∃ w, w ∈ ws ∧ w.hwnd = h ∧ strContains w.title logonMarker = false)
    ∧ ((∀ w ∈ ws, strContains w.title logonMarker = true) →
      (findSapWindowIntegrated pid ws).1 = false
      ∧ (findSapWindowIntegrated pid ws).2.mainHwnd = none
      ∧ findAnySapWindow ws fg = none) := by
  refine ⟨?_, findAnySapWindow_src ws fg h, ?_⟩
  · intro hm
    have := integrated_fold_main_src pid ws ws initFindState h hm
    rcases this with hinit | hsrc
    · exact absurd hinit (by simp [initFindState])
    · exact hsrc
  · intro hall
    have hfold := integrated_fold_logon pid ws ws initFindState hall
    refine ⟨?_, ?_, ?_⟩
    · exact hfold.2.trans rfl
    · exact hfold.1.trans rfl
    · unfold findAnySapWindow
      have hfilter : sapCandidates ws = [] := by
        unfold sapCandidates
        have : ws.filter (fun w =>
            w.visible && (lowerStr w.processName == "saplogon.exe")
              && !(strContains w.title logonMarker)) = [] := by
          rw [List.filter_eq_nil_iff]
          intro w hw
          simp [hall w hw]
        rw [this]
        rfl
      rw [hfilter]

/-- Witness for C7: the primary clause on the C1 scenario (main handle 20
comes from a non-launcher window) and the all-launcher clause on an
enumeration holding only a `"SAP Logon 770"` window. -/
theorem locator_never_selects_logon_witness :
    (∃ w, w ∈ c1Windows ∧ w.hwnd = 20
      ∧ strContains w.title logonMarker = false)
    ∧ ((findSapWindowIntegrated 1234 logonOnlyWindows).1 = false
      ∧ (findSapWindowIntegrated 1234 logonOnlyWindows).2.mainHwnd = none
      ∧ findAnySapWindow logonOnlyWindows 99 = none) :=
  ⟨(locator_never_selects_logon 1234 99 20 c1Windows).1 (by decide),
   (locator_never_selects_logon 1234 99 7 logonOnlyWindows).2.2 (by decide)⟩

/-- A tier run in which no OS call raises never produces an error, whatever
the three poll outcomes. -/
theorem activateTiers_ok (t1 t2 t3 : Bool) :
    isOkE (activateTiers false false false t1 t2 t3) = true := by
  cases t1 <;> cases t2 <;> cases t3 <;> rfl

/-- C8 counterexample: the cached handle 42 is truthy and live, yet when the
tier-3 `SetForegroundWindow` call raises (the OS denying the foreground
change) after the first two polls fail, the routine fails the whole
operation - so the code can raise with a perfectly valid handle, against
the claim that it raises only when the cached handle is invalid and the
fallback search yields no window. -/
theorem activator_tier_raise_fails :
    isOkE (ensureSapWindowActive (some 42) [42] [] 99
      false false true false false false) = false
    ∧ (42 : Int) ≠ 0 ∧ (42 : Int) ∈ ([42] : List Int) := by
  decide

/-- C8 (amended): with a valid live cached handle, when no reached tier's OS
calls raise, the routine returns normally even if every foreground poll
fails (it merely warns); an error can only arise from an unusable cached
handle combined with a falsy fallback result, or from a tier's OS calls
raising (which the blanket `except` re-raises as an activation failure). -/
theorem activator_error_paths (cachedMain : Option Int) (live : List Int)
    (ws : List PyWindow) (fg h : Int) (r1 r2 r3 t1 t2 t3 : Bool) :
    (cachedMain = some h → h ≠ 0 → h ∈ live →
      ensureSapWindowActive cachedMain live ws fg
        false false false false false false = .ok .warnedNotActivated)
    ∧ (isOkE (ensureSapWindowActive cachedMain live ws fg
        r1 r2 r3 t1 t2 t3) = false →
      ((match cachedMain with
        | some h2 => h2 = 0 ∨ h2 ∉ live
        | none => True)
        ∧ (findAnySapWindow ws fg = none ∨ findAnySapWindow ws fg = some 0))
      ∨ (r1 = true ∨ r2 = true ∨ r3 = true)) := by
  constructor
  · intro hc h0 hl
    subst hc
    simp [ensureSapWindowActive, h0, hl, activateTiers]
  · intro herr
    by_cases hr : r1 = true ∨ r2 = true ∨ r3 = true
    · exact .inr hr
    · refine .inl ?_
      have hr1 : r1 = false := by
        cases hval : r1
        · rfl
        · exact absurd (Or.inl hval) hr
      have hr2 : r2 = false := by
        cases hval : r2
        · rfl
        · exact absurd (Or.inr (Or.inl hval)) hr
      have hr3 : r3 = false := by
        cases hval : r3
        · rfl
        · exact absurd (Or.inr (Or.inr hval)) hr
      subst hr1
      subst hr2
      subst hr3
      cases cachedMain with
      | none =>
        refine ⟨trivial, ?_⟩
        cases hfa : findAnySapWindow ws fg with
        | none => exact .inl rfl
        | some hh =>
          by_cases hz : hh = 0
          · subst hz
            exact .inr rfl
          · exfalso
            simp [ensureSapWindowActive, hfa, hz, activateTiers_ok] at herr
      | some h2 =>
        by_cases hok : h2 ≠ 0 ∧ h2 ∈ live
        · exfalso
          simp [ensureSapWindowActive, hok.1, hok.2, activateTiers_ok] at herr
        · refine ⟨?_, ?_⟩
          · show h2 = 0 ∨ h2 ∉ live
            rcases Decidable.em (h2 = 0) with hz | hz
            · exact .inl hz
            · rcases Decidable.em (h2 ∈ live) with hm | hm
              · exact absurd ⟨hz, hm⟩ hok
              · exact .inr hm
          · cases hfa : findAnySapWindow ws fg with
            | none => exact .inl rfl
            | some hh =>
              by_cases hz : hh = 0
              · subst hz
                exact .inr rfl
              · exfalso
                simp [ensureSapWindowActive, hok, hfa, hz,
                  activateTiers_ok] at herr

/-- Witness for the amended C8: a live cached handle 42 with no raises and
all polls failing returns the warning outcome; a session with no cached
handle and an empty window list fails by the resolution path. -/
theorem activator_error_paths_witness :
    ensureSapWindowActive (some 42) [42] [] 99
      false false false false false false = .ok .warnedNotActivated
    ∧ (((match (none : Option Int) with
        | some h2 => h2 = 0 ∨ h2 ∉ ([] : List Int)
        | none => True)
        ∧ (findAnySapWindow [] 99 = none ∨ findAnySapWindow [] 99 = some 0))
      ∨ (false = true ∨ false = true ∨ false = true)) :=
  ⟨(activator_error_paths (some 42) [42] [] 99 42
      false false false false false false).1 rfl (by decide) (by decide),
   (activator_error_paths none [] [] 99 0
      false false false false false false).2 (by decide)⟩

/-- C6: when any of the four credential environment variables is absent the
launch fails with no prior-instance kill and no process spawn - the raise
happens strictly before the side-effecting steps. -/
theorem launch_missing_credentials (cfg : LaunchCfg)
    (h : cfg.sapSystem = none ∨ cfg.sapClient = none
      ∨ cfg.sapUser = none ∨ cfg.sapPassword = none) :
    isOkE (launch_transaction cfg).1 = false
    ∧ (launch_transaction cfg).2 = [] := by
  have hcred : (truthyEnv cfg.sapSystem && truthyEnv cfg.sapClient
      && truthyEnv cfg.sapUser && truthyEnv cfg.sapPassword) = false := by
    rcases h with h1 | h1 | h1 | h1 <;> simp [h1, truthyEnv]
  by_cases hexe : cfg.exeExists = false
  · simp [launch_transaction, hexe, isOkE]
  · simp [launch_transaction, hexe, hcred, isOkE]

/-- Witness for C6: an otherwise healthy environment missing only the
password fails before any kill or spawn. -/
theorem launch_missing_credentials_witness :
    isOkE (launch_transaction missingPwCfg).1 = false
    ∧ (launch_transaction missingPwCfg).2 = [] :=
  launch_missing_credentials missingPwCfg (by simp [missingPwCfg])

/-- C9 counterexample: a `sap_scroll` call carrying the screenshot-mode
value `"as_png"` (not one of the five modes the claim lists) is not
rejected: the scroll is dispatched and the normal screenshot resource is
returned, with no error text. -/
theorem screenshot_mode_not_validated :
    handleCallTool "sap_scroll"
      [("direction", PyVal.vStr "down"), ("return_screenshot", PyVal.vStr "as_png")]
      "IMG" =
    some ([McpContent.embeddedResource "application:image"
            "data:image/png;base64,IMG"],
          [ToolEffect.scrolled (-5)]) := by
  decide

/-- C9 (amended): the adapter declares no screenshot-mode enum and never
validates one - for every value of a `return_screenshot` argument (and of
`experimental`) the `sap_scroll` operation is dispatched, and the content is
the screenshot payload selected solely by the truthiness of
`experimental`. -/
theorem screenshot_flag_never_validated (dir : String) (v exp : PyVal)
    (img : String) :
    handleCallTool "sap_scroll"
      [("direction", PyVal.vStr dir), ("return_screenshot", v),
       ("experimental", exp)] img =
    some (handleImageResponse img (pyTruthy exp),
          [ToolEffect.scrolled (if lowerStr dir = "down" then (-5 : Int) else 5)]) :=
  rfl

/-- Witness for the amended C9: an unrecognized mode string `"maybe"` with a
truthy `experimental` flag still scrolls and returns the screenshot. -/
theorem screenshot_flag_never_validated_witness :
    handleCallTool "sap_scroll"
      [("direction", PyVal.vStr "up"), ("return_screenshot", PyVal.vStr "maybe"),
       ("experimental", PyVal.vBool true)] "IMG" =
    some (handleImageResponse "IMG" (pyTruthy (PyVal.vBool true)),
          [ToolEffect.scrolled
            (if lowerStr "up" = "down" then (-5 : Int) else 5)]) :=
  screenshot_flag_never_validated "up" (PyVal.vStr "maybe") (PyVal.vBool true)
    "IMG"

/-- C10: an absent `x` argument of `sap_click` silently defaults to 0 and
the click is dispatched at `(0, y)`; symmetrically an absent `y` with a
present coercible `x` clicks at `(x, 0)`; only a present value that `int()`
rejects yields the `Coordinates must be valid integers` error text, with no
click dispatched. -/
theorem sap_click_missing_coordinate_defaults
    (args args2 args3 : List (String × PyVal)) (xv : PyVal) (img : String)
    (iy ix : Int)
    (hx : argsGet args "x" = none)
    (hy : pyToInt (argsGetD args "y" (PyVal.vInt 0)) = some iy)
    (h3y : argsGet args3 "y" = none)
    (h3x : pyToInt (argsGetD args3 "x" (PyVal.vInt 0)) = some ix)
    (h2x : argsGet args2 "x" = some xv)
    (h2bad : pyToInt xv = none) :
    handleCallTool "sap_click" args img =
      some (handleImageResponse img
              (pyTruthy (argsGetD args "experimental" (PyVal.vBool false))),
            [ToolEffect.clickAt 0 iy])
    ∧ handleCallTool "sap_click" args3 img =
      some (handleImageResponse img
              (pyTruthy (argsGetD args3 "experimental" (PyVal.vBool false))),
            [ToolEffect.clickAt ix 0])
    ∧ handleCallTool "sap_click" args2 img =
      some ([McpContent.text
              "Error: Error executing sap_click: Coordinates must be valid integers"],
            []) := by
  refine ⟨?_, ?_, ?_⟩
  · have hx0 : pyToInt (argsGetD args "x" (PyVal.vInt 0)) = some 0 := by
      unfold argsGetD
      rw [hx]
      rfl
    simp [handleCallTool, hx0, hy]
  · have hy0 : pyToInt (argsGetD args3 "y" (PyVal.vInt 0)) = some 0 := by
      unfold argsGetD
      rw [h3y]
      rfl
    simp [handleCallTool, h3x, hy0]
  · unfold handleCallTool
    rw [if_pos rfl]
    unfold argsGetD
    rw [h2x]
    simp [h2bad, errorContent]

/-- Witness for C10: `sap_click` with only `y := 7` clicks at `(0, 7)`,
with only `x := 5` clicks at `(5, 0)`; `sap_click` with `x := "abc"`
returns the invalid-integer error text and dispatches nothing. -/
theorem sap_click_missing_coordinate_defaults_witness :
    handleCallTool "sap_click" [("y", PyVal.vInt 7)] "IMG" =
      some (handleImageResponse "IMG"
              (pyTruthy (argsGetD [("y", PyVal.vInt 7)] "experimental"
                (PyVal.vBool false))),
            [ToolEffect.clickAt 0 7])
    ∧ handleCallTool "sap_click" [("x", PyVal.vInt 5)] "IMG" =
      some (handleImageResponse "IMG"
              (pyTruthy (argsGetD [("x", PyVal.vInt 5)] "experimental"
                (PyVal.vBool false))),
            [ToolEffect.clickAt 5 0])
    ∧ handleCallTool "sap_click" [("x", PyVal.vStr "abc")] "IMG" =
      some ([McpContent.text
              "Error: Error executing sap_click: Coordinates must be valid integers"],
            []) :=
  sap_click_missing_coordinate_defaults [("y", PyVal.vInt 7)]
    [("x", PyVal.vStr "abc")] [("x", PyVal.vInt 5)] (PyVal.vStr "abc") "IMG" 7 5
    (by decide) (by decide) (by decide) (by decide) (by decide) (by decide)

end SapGui
